import Mathlib

/-!
Verification development for the pybdist build-distribution helper.

The development shallowly embeds the three modules of the package
(`util.py`, `googlecode_update.py`, `documents.py`) at the level of their
string and filesystem semantics:

* The local filesystem is a map from path strings to optional file
  contents (`Fs`).  Directory creation (`os.makedirs`) has no observable
  effect on file contents and is not tracked.
* Network fetches, the upload call, the `apt` package cache, the
  `gettext` translation function and `textwrap.wrap` are external
  collaborators; they enter the embedding as explicit parameters
  (oracles), exactly at the call sites where the source consults them.
* Python exceptions (`NameError`, `FileNotFoundError`, ...) are embedded
  as explicit error values; `sys.exit` is an explicit exit code.
* Python 2/3 porting artifacts that would make every operation fail
  uniformly in CPython 3 (the `file(...)` builtin in `download_file`,
  `str` patterns applied to `bytes` responses, `ugettext`) are abstracted
  away: the embedding models the string-level data flow of the code.
  Genuine logic-level behaviour (the inverted checksum comparison and the
  `hex_digext` typo in `maybe_download_file`, the dropped
  `download_count` key, the absent marker on license files, the ignored
  upload result in `update_file`) is kept faithfully.
* The regular expressions used by the source are embedded by dedicated
  matchers that implement, for exactly the pattern shapes appearing in
  the source (literal segments, `.*`, lazy `(.+?)` groups, greedy
  negated character classes, `\s*`), the leftmost-match and
  backtracking semantics of Python `re`.
-/

namespace Pybdist

/-! ## Basic string machinery (decidable, kernel-friendly) -/

/-- Scans `h` for an occurrence of `pat` as a contiguous sublist
(Python `pat in h`). -/
def containsSub (pat : List Char) : List Char → Bool
  | [] => pat.isPrefixOf []
  | c :: t => pat.isPrefixOf (c :: t) || containsSub pat t

/-- `containsSubStr pat s` embeds the Python substring test `pat in s`. -/
def containsSubStr (pat s : String) : Bool :=
  containsSub pat.data s.data

/-- Splits a character list at every occurrence of the single separator
character (Python `str.split(sep)` for a one-character separator). -/
def splitOnCharList (sep : Char) : List Char → List (List Char)
  | [] => [[]]
  | c :: t =>
    let r := splitOnCharList sep t
    if c = sep then [] :: r
    else
      match r with
      | [] => [[c]]
      | h :: rest => (c :: h) :: rest

/-- Joins lines with a newline separator (Python `'\n'.join(lines)`). -/
def joinNlList : List (List Char) → List Char
  | [] => []
  | [l] => l
  | l :: l2 :: ls => l ++ '\n' :: joinNlList (l2 :: ls)

/-- String-level wrapper for `joinNlList`. -/
def joinNl (lines : List String) : String :=
  String.mk (joinNlList (lines.map String.data))

/-- Fuelled worker for `replaceAllList` (each step consumes at least one
character, so fuel `h.length` is always sufficient; the fuel-0 fallback
is unreachable under the wrapper's choice). -/
def replaceAllF (fuel : Nat) (pat repl : List Char) : List Char → List Char :=
  match fuel with
  | 0 => fun h => h
  | fuel + 1 => fun h =>
    match h with
    | [] => []
    | c :: t =>
      if (!pat.isEmpty) && pat.isPrefixOf (c :: t) then
        repl ++ replaceAllF fuel pat repl ((c :: t).drop pat.length)
      else c :: replaceAllF fuel pat repl t

/-- Replaces every (leftmost, non-overlapping) occurrence of the
non-empty literal `pat` by `repl` (Python `re.sub` for a literal
pattern, or `str.replace`). -/
def replaceAllList (pat repl h : List Char) : List Char :=
  replaceAllF h.length pat repl h

/-- Replaces the first occurrence of the non-empty literal `pat` by
`repl` (Python `%` formatting for a format string with one `%s`). -/
def replaceFirstList (pat repl : List Char) : List Char → List Char
  | [] => []
  | c :: t =>
    if pat.isPrefixOf (c :: t) then repl ++ (c :: t).drop pat.length
    else c :: replaceFirstList pat repl t

/-- Embeds Python `fmt % arg` for a format string containing one `%s`. -/
def pyFmtS (fmt arg : String) : String :=
  String.mk (replaceFirstList "%s".data arg.data fmt.data)

/-- Embeds Python `str.strip()`: removes leading and trailing
whitespace. -/
def pyStrip (s : String) : String :=
  String.mk
    (((s.data.dropWhile Char.isWhitespace).reverse.dropWhile
        Char.isWhitespace).reverse)

/-- Embeds Python `str.lower()`. -/
def pyLower (s : String) : String := String.mk (s.data.map Char.toLower)

/-- Embeds Python `str.capitalize()`: first character upper-cased, the
rest lower-cased. -/
def pyCapitalize (s : String) : String :=
  match s.data with
  | [] => ""
  | c :: t => String.mk (c.toUpper :: t.map Char.toLower)

/-- Embeds Python `str.endswith(suf)`. -/
def endsWithStr (suf s : String) : Bool := suf.data.isSuffixOf s.data

/-- Embeds Python `int(s, 10)`: optional surrounding whitespace, an
optional sign, then decimal digits (underscore separators are not used
by the source's inputs and are not modelled). `none` models the
`ValueError` raised on any other input. -/
def pyIntDec (s : String) : Option Int :=
  match (pyStrip s).data with
  | [] => none
  | c :: rest =>
    let signed : Bool × List Char :=
      if c = '-' then (true, rest)
      else if c = '+' then (false, rest) else (false, c :: rest)
    if signed.2.isEmpty then none
    else if signed.2.all Char.isDigit then
      let n : Nat := signed.2.foldl (fun a d => a * 10 + (d.toNat - 48)) 0
      some (if signed.1 then -(n : Int) else (n : Int))
    else none

/-- Embeds Python truthiness of an optional string: `None` and the empty
string are falsy. -/
def truthy : Option String → Bool
  | some s => !s.isEmpty
  | none => false

/-! ## util.py -/

/-- `util.MAGIC_NAME`: the generated-file marker string. -/
def MAGIC_NAME : String := "`pybdist`"

/-- The local filesystem: a map from path strings to optional byte
contents (contents modelled as strings). -/
def Fs : Type := String → Option String

/-- Pointwise filesystem update: models a file write (`some`) or an
`os.unlink`/`os.rename`-away (`none`) at one path. -/
def fsUpdate (fs : Fs) (p : String) (v : Option String) : Fs :=
  fun q => if q = p then v else fs q

/-- `tempfile.gettempdir()` joined with `'pybdist'`, as used by
`_safe_overwrite`. -/
def tmpdir : String := "/tmp/pybdist"

/-- The fixed scratch path `os.path.join(tmpdir, 'tmp.tmp')` used by
`_safe_overwrite` for the candidate rendering. -/
def out_tempname : String := "/tmp/pybdist/tmp.tmp"

/-- `os.path.basename`: the component after the last `/`. -/
def basenameStr (s : String) : String :=
  String.mk ((splitOnCharList '/' s.data).getLastD [])

/-- The backup path `os.path.join(tmpdir, os.path.basename(fname))`. -/
def backup_name (fname : String) : String :=
  tmpdir ++ "/" ++ basenameStr fname

/-- Marker test of `_safe_overwrite`: some line of the file content
contains `MAGIC_NAME` (Python `for line in open(fname): if MAGIC_NAME in
line`; the marker contains no newline, so the per-line check is split on
newlines). -/
def hasMagic (content : String) : Bool :=
  (splitOnCharList '\n' content.data).any (fun l => containsSub MAGIC_NAME.data l)

/-- The `can_overwrite` computation of `_safe_overwrite` lines 48-54: a
missing destination may be written; an existing destination only if some
line carries the marker. -/
def can_overwrite_check (fs : Fs) (fname : String) : Bool :=
  match fs fname with
  | none => true
  | some content => hasMagic content

/-- Result of `_safe_overwrite`: the filesystem afterwards, whether the
interactive prompt (`input`) ran, and whether any `os.rename` ran. -/
structure WriteResult where
  fs : Fs
  prompted : Bool
  renamed : Bool

/-- Embeds `util._safe_overwrite(lines, fname)`.  `yn` is the operator's
answer on the conflict prompt.  The steps mirror the source: marker
check and early return; render the candidate to `out_tempname`; if the
destination exists and is byte-identical, unlink the candidate and
return; otherwise prompt, and on decline unlink and return; on accept
rename the destination to the backup path and rename the candidate onto
the destination.  (`os.makedirs` of the temp directory is not tracked.) -/
def _safe_overwrite (lines : List String) (fname yn : String) (fs : Fs) :
    WriteResult :=
  if can_overwrite_check fs fname then
    let candidate := joinNl lines
    let fs1 := fsUpdate fs out_tempname (some candidate)
    match fs1 fname with
    | some content =>
      if candidate = content then
        ⟨fsUpdate fs1 out_tempname none, false, false⟩
      else if pyLower yn = "y" then
        let fs2 := fsUpdate (fsUpdate fs1 fname none) (backup_name fname)
          (some content)
        ⟨fsUpdate (fsUpdate fs2 out_tempname none) fname (some candidate),
          true, true⟩
      else
        ⟨fsUpdate fs1 out_tempname none, true, false⟩
    | none =>
      ⟨fsUpdate (fsUpdate fs1 out_tempname none) fname (some candidate),
        false, true⟩
  else ⟨fs, false, false⟩

/-! ## googlecode_update.py -/

/-- Python exceptions raised by the embedded code paths. -/
inductive PyErr where
  | fileNotFound
  | nameError
  | typeError
  | valueError
deriving DecidableEq

/-- Console output events of `googlecode_update.py`, one constructor per
`print` in the source (the f-string rendering itself is not modelled;
each constructor carries the interpolated data). -/
inductive Msg where
  | shaMismatchDownloading
  | checksumsMatch (fname : String)
  | shaMismatchUploading (fname : String)
  | fileNotThereUploading (fname : String)
  | uploadDiag (status : Int) (reason : String)
  | uploadContext (path project summary : String) (labels : List String)
  | dowloading (path : String)
  | checkingDownload (path : String)
  | removingFeatured (fname : String)
  | updating (fname : String)
deriving DecidableEq

/-- Result of one stateful operation of `googlecode_update.py`: the
filesystem afterwards, whether a download was performed, the console
events, the exception raised (if any; the filesystem field is the state
at the moment of the raise), and the `sys.exit` code (if any). -/
structure OpResult where
  fs : Fs
  downloaded : Bool
  msgs : List Msg
  err : Option PyErr
  exit : Option Int

/-- The result triple of `googlecode_upload.upload` (an external
collaborator): HTTP status, reason string, and the resulting URL (`none`
or the empty string model a failed upload). -/
structure UploadResp where
  status : Int
  reason : String
  url : Option String
deriving DecidableEq

/-- A parsed feed entry, mirroring the dictionary built by
`get_download_list`: every pattern-extracted field is optional. -/
structure Entry where
  project_name : String
  updated : Option String
  summary : Option String
  labels : List String
  fname : Option String
deriving DecidableEq

/-- Embeds `download_file(project_name, fname, dist_dir)`: fetches the
artifact (the fetched bytes are the `remote_content` parameter) and
writes them to `dist_dir/fname`.  (The `file(...)` builtin used by the
source is a Python-2 artifact; the write it performs is modelled.) -/
def download_file (remote_content dist_dir fname : String) (fs : Fs) :
    OpResult :=
  ⟨fsUpdate fs (dist_dir ++ "/" ++ fname) (some remote_content), true, [],
    none, none⟩

/-- Embeds `maybe_download_file(project_name, fname, dist_dir)`.
`details_sha1` is the `sha1` field of the `get_file_details` record (an
external fetch).  The source is kept faithfully, including its two
defects: when the remote checksum is truthy it compares the local digest
with `==` (so the download branch runs exactly when the checksums
MATCH), and when the remote checksum is absent it assigns the misspelled
`hex_digext`, so the comparison line raises `NameError` on the unbound
`hex_digest`. -/
def maybe_download_file (sha1fn : String → String)
    (details_sha1 : Option String) (remote_content dist_dir fname : String)
    (fs : Fs) : OpResult :=
  let dist_filename := dist_dir ++ "/" ++ fname
  if truthy details_sha1 then
    match fs dist_filename with
    | none => ⟨fs, false, [], some .fileNotFound, none⟩
    | some content =>
      let hex_digest := sha1fn content
      if some hex_digest = details_sha1 then
        let r := download_file remote_content dist_dir fname fs
        ⟨r.fs, true, [.shaMismatchDownloading], none, none⟩
      else ⟨fs, false, [], none, none⟩
  else ⟨fs, false, [], some .nameError, none⟩

/-- The branch-free core of `maybe_upload_file`: console events, exit
code and exception; the filesystem is never written by this function.
`local_content` is the content of `dist_dir/fname` (if present). -/
def maybe_upload_core (sha1fn : String → String)
    (details_sha1 : Option String) (resp : UploadResp)
    (dist_dir fname project summary : String) (labels : List String)
    (local_content : Option String) :
    List Msg × Option Int × Option PyErr :=
  let path := dist_dir ++ "/" ++ fname
  let afterUpload : Msg → List Msg × Option Int × Option PyErr := fun pre =>
    if truthy resp.url then ([pre], none, none)
    else
      ([pre, .uploadDiag resp.status resp.reason,
        .uploadContext path project summary labels], some (-1), none)
  if truthy details_sha1 then
    match local_content with
    | none => ([], none, some .fileNotFound)
    | some content =>
      let hex_digest := sha1fn content
      if some hex_digest ≠ details_sha1 then
        afterUpload (.shaMismatchUploading fname)
      else ([.checksumsMatch fname], none, none)
  else
    afterUpload (.fileNotThereUploading fname)

/-- Embeds `maybe_upload_file(project_name, dist_dir, fname, summary,
labels, username, password)`.  When the remote checksum is absent or
differs from the local digest, the file is uploaded; a falsy resulting
URL prints the status, the reason and the file/project context and calls
`sys.exit(-1)`.  No branch writes the local filesystem. -/
def maybe_upload_file (sha1fn : String → String)
    (details_sha1 : Option String) (resp : UploadResp)
    (dist_dir fname project summary : String) (labels : List String)
    (fs : Fs) : OpResult :=
  let core := maybe_upload_core sha1fn details_sha1 resp dist_dir fname
    project summary labels (fs (dist_dir ++ "/" ++ fname))
  ⟨fs, false, core.1, core.2.2, core.2.1⟩

/-- Embeds `update_file(info, dist_dir, username, password)`: prints
`Updating ...`, then calls `googlecode_upload.upload` and DISCARDS its
result triple — no check of the returned URL, no exit, no exception.
The upload response parameter is therefore unused, mirroring the
source. -/
def update_file (info : Entry) (dist_dir : String) (resp : UploadResp) :
    List Msg × Option Int :=
  ([.updating (info.fname.getD "None")], none)

/-- Embeds `_filter_featured_downloads`: keeps the entries whose label
list contains `'Featured'`. -/
def _filter_featured_downloads (lst : List Entry) : List Entry :=
  lst.filter (fun item => item.labels.contains "Featured")

/-- The skip test of `remove_featured_labels`:
`if except_list and item['fname'] in except_list: continue` — `None` and
the empty list are falsy; an absent filename is never a member. -/
def skip_item (except_list : Option (List String)) (it : Entry) : Bool :=
  match except_list with
  | none => false
  | some l =>
    !l.isEmpty &&
      (match it.fname with
       | some f => l.contains f
       | none => false)

/-- First loop of `remove_featured_labels`: for each non-skipped entry,
download the file if it is missing locally, otherwise run
`maybe_download_file`; an exception aborts the remaining iterations.
`detailsOf`/`contentOf` supply the per-file remote checksum and the
downloadable bytes.  Returns the filesystem, the console events and the
propagated exception. -/
def rfl_loop1 (sha1fn : String → String) (detailsOf : String → Option String)
    (contentOf : String → String) (except_list : Option (List String)) :
    List Entry → Fs → List Msg → Fs × List Msg × Option PyErr
  | [], fs, msgs => (fs, msgs, none)
  | it :: rest, fs, msgs =>
    if skip_item except_list it then
      rfl_loop1 sha1fn detailsOf contentOf except_list rest fs msgs
    else
      match it.fname with
      | none => (fs, msgs, some .typeError)
      | some f =>
        let path := "dist/" ++ f
        match fs path with
        | none =>
          let r := download_file (contentOf f) "dist" f fs
          rfl_loop1 sha1fn detailsOf contentOf except_list rest r.fs
            (msgs ++ [.dowloading path])
        | some _ =>
          let r := maybe_download_file sha1fn (detailsOf f) (contentOf f)
            "dist" f fs
          match r.err with
          | some e => (r.fs, msgs ++ [.checkingDownload path] ++ r.msgs, some e)
          | none =>
            rfl_loop1 sha1fn detailsOf contentOf except_list rest r.fs
              (msgs ++ [.checkingDownload path] ++ r.msgs)

/-- Second loop of `remove_featured_labels`: for each non-skipped entry,
remove `'Featured'` from the in-memory label list, print, and re-upload
via `update_file` (whose result is discarded).  The filesystem is not
touched. -/
def rfl_loop2 (respOf : Entry → UploadResp)
    (except_list : Option (List String)) :
    List Entry → List Msg → List Msg
  | [], msgs => msgs
  | it :: rest, msgs =>
    if skip_item except_list it then rfl_loop2 respOf except_list rest msgs
    else
      let it2 : Entry := ⟨it.project_name, it.updated, it.summary,
        it.labels.erase "Featured", it.fname⟩
      rfl_loop2 respOf except_list rest
        (msgs ++ [.removingFeatured (it.fname.getD "None")] ++
          (update_file it2 "dist" (respOf it2)).1)

/-- Embeds `remove_featured_labels(project_name, user_name, password,
except_list)`.  `lst` is the parsed download list for the project (the
result of `get_download_list`, a network fetch); `respOf` supplies the
upload responses for the second loop.  `dist_dir` is the literal
`'dist'` of the source. -/
def remove_featured_labels (sha1fn : String → String)
    (detailsOf : String → Option String) (contentOf : String → String)
    (respOf : Entry → UploadResp) (lst : List Entry)
    (except_list : Option (List String)) (fs : Fs) : OpResult :=
  let featured := _filter_featured_downloads lst
  match rfl_loop1 sha1fn detailsOf contentOf except_list featured fs [] with
  | (fs1, msgs1, some e) => ⟨fs1, false, msgs1, some e, none⟩
  | (fs1, msgs1, none) =>
    ⟨fs1, false, rfl_loop2 respOf except_list featured msgs1, none, none⟩

/-! ## documents.py — license-key matching (re.search over `lit(.*)lit` shapes) -/

/-- Fuelled worker for `matchSegs`: every call decreases
`h.length + segs.length`, so the wrapper's fuel is always sufficient
(the fuel-0 fallback is unreachable). -/
def matchSegsF (fuel : Nat) : List (List Char) → List Char → Bool :=
  match fuel with
  | 0 => fun segs _ => segs.isEmpty
  | fuel + 1 => fun segs h =>
    match segs with
    | [] => true
    | s :: rest =>
      (s.isPrefixOf h && matchSegsF fuel rest (h.drop s.length)) ||
        (match h with
         | [] => false
         | c :: t => (c != '\n') && matchSegsF fuel (s :: rest) t)

/-- Backtracking matcher for a sequence of literal segments separated by
`.*` gaps, anchored at the start of `h`: the first segment must match at
position 0; each following gap may contain any characters except a
newline (`.` without `re.DOTALL`). -/
def matchSegs (segs : List (List Char)) (h : List Char) : Bool :=
  matchSegsF (h.length + segs.length + 1) segs h

/-- Unanchored search: tries every start position (leftmost first), as
`re.search` does.  For the patterns in `LICENSES` (literal text plus
`.*`) this is exactly Python's match-existence semantics. -/
def reSearch (segs : List (List Char)) : List Char → Bool
  | [] => matchSegs segs []
  | c :: t => matchSegs segs (c :: t) || reSearch segs t

/-- Fuelled worker for `splitOnList` (each step consumes at least one
character). -/
def splitOnListF (fuel : Nat) (sep : List Char) : List Char → List (List Char) :=
  match fuel with
  | 0 => fun h => [h]
  | fuel + 1 => fun h =>
    match h with
    | [] => [[]]
    | c :: t =>
      if (!sep.isEmpty) && sep.isPrefixOf (c :: t) then
        [] :: splitOnListF fuel sep ((c :: t).drop sep.length)
      else
        match splitOnListF fuel sep t with
        | [] => [[c]]
        | hd :: r => (c :: hd) :: r

/-- Splits a pattern on the literal `.*` separator (the only regex
metasyntax occurring in the `LICENSES` keys). -/
def splitOnList (sep h : List Char) : List (List Char) :=
  splitOnListF h.length sep h

/-- Embeds `re.search(pat, text, re.IGNORECASE) is not None` for the
patterns of `LICENSES` and the `'license'` filename pattern: both sides
are lower-cased and the pattern is split on `.*`. -/
def reSearchCI (pat text : String) : Bool :=
  reSearch ((splitOnList ".*".data pat.data).map (fun l => l.map Char.toLower))
    (text.data.map Char.toLower)

/-! ## documents.py — data model and helpers -/

/-- The author-supplied metadata consulted by `documents.py`: the
`NAME`/`SETUP` fields plus the optional attributes probed with
`hasattr` (modelled as `Option`, per the spec's design note). -/
structure Setup where
  NAME : String
  description : String
  long_description : String
  url : String
  license : String
  author : String
  DEPENDS : Option (List String)
  LANGS : Option (List String)
  VCS : Option String
  COPYRIGHT_NAME : Option String

/-- The external collaborators of the document renderer: `textwrap.wrap
(·, 80)`, the active `gettext` translation `_`, and the `apt` package
cache (`some (summary, homepage)` when the package is present). -/
structure Env where
  wrap : String → List String
  tr : String → String
  apt : String → Option (String × String)

/-- `_title(word, char)`: over- and underline of the same length. -/
def _title (word : String) (c : Char) : List String :=
  [String.mk (List.replicate word.length c), word,
    String.mk (List.replicate word.length c)]

/-- `_underline(word, char)`. -/
def _underline (word : String) (c : Char) : List String :=
  [word, String.mk (List.replicate word.length c)]

/-- Left-justification to width `n` (Python `'%-*s' % (n, s)`). -/
def padR (n : Nat) (s : String) : String :=
  s ++ String.mk (List.replicate (n - s.length) ' ')

/-- Embeds `_fill_depends(setup)`: each dependency is looked up in the
apt cache; found packages list their one-line summary aligned to the
longest dependency name, plus a homepage line when the homepage is
truthy; missing packages are listed bare. -/
def _fill_depends (apt : String → Option (String × String))
    (depends : List String) : List String :=
  let longest := depends.foldl (fun m r => max m r.length) 0
  (depends.map (fun req =>
    match apt req with
    | some (summary, homepage) =>
      ["* " ++ padR longest req ++ " - " ++ summary] ++
        (if !homepage.isEmpty then
          ["  " ++ padR longest " " ++ "   (" ++ homepage ++ ")"]
        else [])
    | none => [" * " ++ req])).flatten

/-- Embeds `_find_license()`: the first directory entry matching the
case-insensitive pattern `license` is returned as an absolute path
(`os.path.abspath(os.path.join('.', fname))`, i.e. the working
directory joined with the name); otherwise the empty string. -/
def find_license (cwd : String) (listing : List String) : String :=
  match listing.find? (fun f => reSearchCI "license" f) with
  | some f => cwd ++ "/" ++ f
  | none => ""

/-- Embeds `_readme_lines(setup)` for one emission (the active locale's
translation is `env.tr`; the default locale's `_` is the identity).
`cwd`/`listing` feed the internal `_find_license()` call. -/
def _readme_lines (env : Env) (setup : Setup) (cwd : String)
    (listing : List String) : List String :=
  _title (pyCapitalize setup.NAME) '=' ++ [""]
    ++ env.wrap setup.description ++ [""]
    ++ env.wrap setup.long_description ++ [""]
    ++ _underline (env.tr "Home Page") '-' ++ [""]
    ++ [pyFmtS (env.tr "You can find %s hosted at:") setup.NAME]
    ++ ["  " ++ setup.url]
    ++ (if containsSubStr "code.google.com/" setup.url then
          ["", env.tr "You can file bugs at:",
            "  " ++ setup.url ++ "/issues/list",
            "", env.tr "Latest downloads can be found at:",
            "  " ++ setup.url ++ "/downloads/list"]
        else [])
    ++ (match setup.DEPENDS with
        | some deps =>
          [""] ++ _underline (env.tr "Requirements") '-' ++ [""]
            ++ [env.tr "This program requires other libraries which you may or may not have installed."]
            ++ [""] ++ _fill_depends env.apt deps
        | none => [])
    ++ [""] ++ _underline (env.tr "License") '-' ++ [""]
    ++ [setup.license]
    ++ [pyFmtS (env.tr "You can find it in the %s file.")
          (if find_license cwd listing = "" then "LICENSE-2.0.txt"
           else find_license cwd listing)]
    ++ [""]
    ++ [pyFmtS (env.tr "-- file generated by %s.") MAGIC_NAME]

/-- Embeds `_install_lines(setup)` for one emission. -/
def _install_lines (env : Env) (setup : Setup) : List String :=
  _title (pyFmtS (env.tr "Installing %s") setup.NAME) '=' ++ [""]
    ++ _underline "Downloading" '-' ++ [""]
    ++ (let vcs := setup.VCS.getD setup.url
        if containsSubStr "code.google.com/" vcs then
          [env.tr "You will always find the latest version at:", "",
            "  " ++ setup.url ++ "/downloads/list", ""]
            ++ (if endsWithStr "/hg/" vcs || endsWithStr "/hg" vcs then
                  [env.tr "If you prefer you can clone repository from::", "",
                    "  hg clone " ++ vcs ++ " " ++ setup.NAME, ""]
                else [])
        else [])
    ++ _underline (env.tr "Installation") '-' ++ [""]
    ++ [env.tr "To install using ``pip``,::", "",
        "  $ pip install " ++ setup.NAME, ""]
    ++ [env.tr "To install using ``easy_install``,::", "",
        "  $ easy_install " ++ setup.NAME, ""]
    ++ [env.tr "To install from .deb package::", "",
        "  $ sudo dpkg -i " ++ setup.NAME ++ "*.deb", ""]
    ++ ["If you get errors like Package " ++ setup.NAME ++
        " depends on XXX; however it is not installed."]
    ++ ["", "  $ sudo apt-get -f install",
        "Should install everything you need, then run:",
        "  $ sudo dpkg -i " ++ setup.NAME ++ "*.deb # again"]
    ++ (match setup.DEPENDS with
        | some deps =>
          [""] ++ _underline (env.tr "Dependancies") '-' ++ [""]
            ++ [env.tr "This program requires::"] ++ [""]
            ++ _fill_depends env.apt deps
        | none => [])
    ++ [""] ++ [pyFmtS (env.tr "-- file generated by %s.") MAGIC_NAME]

/-! ## documents.py — license fetcher -/

/-- The ordered `LICENSES` table (insertion order of the source dict):
key pattern, source location, year pattern, holder pattern. -/
def LICENSES : List (String × String × String × String) :=
  [("Apache", "apache.rot13", "\\[yyyy\\]", "\\[name of copyright owner\\]"),
   ("Artistic", "http://www.perlfoundation.org/attachment/legal/artistic-2_0.txt",
     "2000-2006", "The Perl Foundation"),
   ("GPL.*2", "http://www.gnu.org/licenses/gpl-2.0.txt", "END OF TERMS.+", ""),
   ("GPL.*3", "http://www.gnu.org/licenses/gpl-3.0.txt", "END OF TERMS.+", ""),
   ("LGPL", "http://www.gnu.org/licenses/lgpl.txt", "", ""),
   ("MIT", "mit-license.rot13", "<year>", "<copyright holders>"),
   ("Mozilla", "http://www.mozilla.org/MPL/MPL-1.1.txt", "", ""),
   ("BSD", "new-bsd-license.rot13", "<YEAR>", "<OWNER>")]

/-- The rule lookup of `out_license`: the first table entry whose key
pattern matches the license identifier (case-insensitively). -/
def find_rule (lic_text : String) :
    Option (String × String × String × String) :=
  LICENSES.find? (fun r => reSearchCI r.1 lic_text)

/-- Drops every backslash of a pattern, turning the escaped literal
patterns of `LICENSES` (`\[yyyy\]`, `\[name of copyright owner\]`) into
the literal text they match. -/
def stripBackslash (s : String) : String :=
  String.mk (s.data.filter (fun c => c != '\\'))

/-- The one non-literal substitution pattern, `END OF TERMS.+` with
`re.DOTALL`: the single leftmost match runs from the first occurrence of
the marker (followed by at least one character) to the end of the text;
`re.sub` replaces it by `repl`. -/
def replaceTailGo (marker repl : List Char) : List Char → List Char
  | [] => []
  | c :: t =>
    if marker.isPrefixOf (c :: t) && !((c :: t).drop marker.length).isEmpty
    then repl
    else c :: replaceTailGo marker repl t

/-- Embeds `re.compile(pattern, re.DOTALL).sub(repl, txt)` for exactly
the substitution patterns appearing in `LICENSES`: the empty pattern
(which inserts `repl` at every position), the `END OF TERMS.+` pattern,
and backslash-escaped literal patterns. -/
def pySub (pattern repl txt : String) : String :=
  if pattern = "" then
    String.mk (repl.data ++
      (txt.data.foldr (fun c acc => c :: (repl.data ++ acc)) []))
  else if pattern = "END OF TERMS.+" then
    String.mk (replaceTailGo "END OF TERMS".data repl.data txt.data)
  else
    String.mk (replaceAllList (stripBackslash pattern).data repl.data txt.data)

/-- Fallible results (`raise` → `err`). -/
inductive PyResult (α : Type) where
  | ok (a : α)
  | err (m : String)
deriving DecidableEq

/-- Embeds `out_license(setup)` up to the `_safe_overwrite` call:
resolves the rule for the license identifier (raising
`DocumentsException` when no key matches, before anything is fetched or
written), determines the license filename via `_find_license()`,
substitutes the year and the copyright holder into the fetched template
(`fetched` stands for the text obtained from the rule's URL or bundled
rot13 file, already de-obfuscated), and returns the filename plus the
lines handed to the writer.  (`%r` quoting in the exception message is
not rendered.) -/
def out_license (lic_text author : String) (copyright_name : Option String)
    (cwd : String) (listing : List String) (fetched year : String) :
    PyResult (String × List String) :=
  match find_rule lic_text with
  | none => .err ("Unknown lic_text " ++ lic_text)
  | some r =>
    let license_fname :=
      if find_license cwd listing = "" then "LICENSE-2.0.txt"
      else find_license cwd listing
    let y_regex := r.2.2.1
    let name_regex := r.2.2.2
    let txt := pySub y_regex year fetched
    let cn := copyright_name.getD author
    let txt2 :=
      if name_regex ≠ "" then pySub name_regex cn txt
      else txt ++ " " ++ cn
    .ok (license_fname, (splitOnCharList '\n' txt2.data).map String.mk)

/-- One full document-generation pass in the order of the module's
`__main__` (`out_readme`, `out_license`, `out_install`) for the default
locale, with every `_safe_overwrite` accepted: returns the README lines,
the INSTALL lines and the directory listing after the pass (out_license
creates `LICENSE-2.0.txt` in the working directory when `_find_license`
found nothing). -/
def docs_run (env : Env) (setup : Setup) (cwd : String)
    (listing : List String) (fetched year : String) :
    PyResult (List String × List String × List String) :=
  let readme := _readme_lines env setup cwd listing
  match out_license setup.license setup.author setup.COPYRIGHT_NAME cwd
      listing fetched year with
  | .err m => .err m
  | .ok _ =>
    let listing2 :=
      if find_license cwd listing = "" then listing ++ ["LICENSE-2.0.txt"]
      else listing
    .ok (readme, _install_lines env setup, listing2)

/-! ## googlecode_update.py — feed/detail-page pattern extraction

`_safe_search` applies `re.search` with a single group and returns the
group or `None`.  The patterns used are of the shapes `pre(.+?)post`
(lazy group between two literals), `pre([^X]+)post` (greedy negated
class), and the title pattern with `\s*` paddings; each shape gets a
dedicated matcher implementing the leftmost-start, then per-token
greedy/lazy priority of Python `re`. -/

/-- Lazy-group scan at a fixed start: consumes group characters one at a
time (at least one), returning the shortest group after which `post`
matches, together with the text after `post` (for `finditer`
continuation).  A newline inside the group fails the attempt when
`noNl` (a `.` group without `re.DOTALL`). -/
def grpSearch (post : List Char) (noNl : Bool) :
    List Char → List Char → Option (List Char × List Char)
  | _, [] => none
  | acc, c :: t =>
    if noNl && (c == '\n') then none
    else if post.isPrefixOf t then some (acc ++ [c], t.drop post.length)
    else grpSearch post noNl (acc ++ [c]) t

/-- Embeds `_safe_search(pre + '(.+?)' + post, haystack)` for literal
`pre`/`post`: scans start positions left to right; at each occurrence of
`pre`, takes the shortest non-empty group followed by `post`; on failure
backtracks to the next start. -/
def safeSearchLit (pre post : List Char) (noNl : Bool) :
    List Char → Option (List Char)
  | [] => none
  | c :: t =>
    if pre.isPrefixOf (c :: t) then
      match grpSearch post noNl [] ((c :: t).drop pre.length) with
      | some (g, _) => some g
      | none => safeSearchLit pre post noNl t
    else safeSearchLit pre post noNl t

/-- Tries `f` at `n, n-1, ..., 0`, returning the first `some` (the
backtracking order of a greedy quantifier). -/
def firstSomeDesc {α : Type} (f : Nat → Option α) : Nat → Option α
  | 0 => f 0
  | k + 1 =>
    match f (k + 1) with
    | some a => some a
    | none => firstSomeDesc f k

/-- `\s*lit`: some amount of leading whitespace followed by the literal
(the greedy/lazy split of the final `\s*` does not affect
match-existence). -/
def wsThenLit (lit : List Char) : List Char → Bool
  | [] => lit.isPrefixOf []
  | c :: t => lit.isPrefixOf (c :: t) || (c.isWhitespace && wsThenLit lit t)

/-- The tail of the title pattern, `\s*(.*)\s*</title>`, matched at a
fixed start: the first `\s*` prefers the longest whitespace run, then
the greedy newline-free group prefers the longest length after which
optional whitespace and `</title>` follow. -/
def tryTitleAt (r : List Char) : Option (List Char) :=
  let wmax := (r.takeWhile Char.isWhitespace).length
  firstSomeDesc (fun w =>
    let r1 := r.drop w
    let gmax := (r1.takeWhile (fun c => c != '\n')).length
    firstSomeDesc (fun g =>
      if wsThenLit "</title>".data (r1.drop g) then some (r1.take g)
      else none) gmax) wmax

/-- Embeds `_safe_search(r'<title>\s*(.*)\s*</title>', entry)`: leftmost
`<title>` from which the rest of the pattern completes. -/
def titleSearch : List Char → Option (List Char)
  | [] => none
  | c :: t =>
    if "<title>".data.isPrefixOf (c :: t) then
      match tryTitleAt ((c :: t).drop "<title>".data.length) with
      | some g => some g
      | none => titleSearch t
    else titleSearch t

/-- Embeds `_safe_search(pre + '([^X]+)' + post, text)` where `post` is
empty or begins with the excluded character `X` (the two shapes used on
the detail page): the greedy group is the maximal run of characters
other than `X`; no shorter group can be followed by `post`, so no group
backtracking is needed. -/
def classPlusSearch (pre : List Char) (excl : Char) (post : List Char) :
    List Char → Option (List Char)
  | [] => none
  | c :: t =>
    if pre.isPrefixOf (c :: t) then
      let rest := (c :: t).drop pre.length
      let g := rest.takeWhile (fun d => d != excl)
      if !g.isEmpty && post.isPrefixOf (rest.drop g.length) then some g
      else classPlusSearch pre excl post t
    else classPlusSearch pre excl post t

/-- Embeds the date pattern
`<span class="date"[^>]+ title="([^"]+)"`: after the literal prefix, the
greedy `[^>]+` (longest first) must be followed by ` title="`, then the
greedy `[^"]+` group must be followed by `"`. -/
def dateSearch : List Char → Option (List Char)
  | [] => none
  | c :: t =>
    if "<span class=\"date\"".data.isPrefixOf (c :: t) then
      let r := (c :: t).drop "<span class=\"date\"".data.length
      let runLen := (r.takeWhile (fun d => d != '>')).length
      let attempt := firstSomeDesc (fun n =>
        if n = 0 then none
        else if " title=\"".data.isPrefixOf (r.drop n) then
          let r2 := r.drop (n + " title=\"".data.length)
          let g := r2.takeWhile (fun d => d != '"')
          if !g.isEmpty && ((r2.drop g.length).take 1 = ['"']) then some g
          else none
        else none) runLen
      match attempt with
      | some g => some g
      | none => dateSearch t
    else dateSearch t

/-- Fuelled worker for `findEntries` (each iteration consumes at least
the `<entry>` open tag or one character). -/
def findEntriesF (fuel : Nat) : List Char → List (List Char) :=
  match fuel with
  | 0 => fun _ => []
  | fuel + 1 => fun h =>
    match h with
    | [] => []
    | c :: t =>
      if "<entry>".data.isPrefixOf (c :: t) then
        match grpSearch "</entry>".data false []
            ((c :: t).drop "<entry>".data.length) with
        | some (g, rest) => g :: findEntriesF fuel rest
        | none => []
      else findEntriesF fuel t

/-- Embeds `re.compile(r'<entry>(.+?)</entry>', re.DOTALL).finditer`:
each iteration finds the next lazy block and continues after its close
tag. -/
def findEntries (h : List Char) : List (List Char) :=
  findEntriesF h.length h

/-- Embeds the per-entry parsing of `get_download_list` (lines 35-44):
four independent `_safe_search` extractions; a label string is
whitespace-split (falsy → empty list). -/
def parse_entry (project_name entry : String) : Entry :=
  let e := entry.data
  let updated := (safeSearchLit "<updated>".data "</updated>".data true
    e).map String.mk
  let summary := (titleSearch e).map String.mk
  let labels :=
    match (safeSearchLit "Labels:".data "&lt;".data false e).map String.mk
      with
    | some s => (s.data.splitOnP Char.isWhitespace).map String.mk
        |>.filter (fun x => !x.isEmpty)
    | none => []
  let fname := (safeSearchLit "downloads/detail?name=".data "\"".data true
    e).map String.mk
  ⟨project_name, updated, summary, labels, fname⟩

/-- Embeds `get_download_list(project_name)`: the feed text is the fetch
result (`none` models a `URLError`, which the source turns into the
empty text, hence an empty list). -/
def get_download_list (project_name : String) (fetch : Option String) :
    List Entry :=
  (findEntries (fetch.getD "").data).map
    (fun e => parse_entry project_name (String.mk e))

/-! ## googlecode_update.py — get_file_details -/

/-- A Python dict value of the detail record: a string, a number, or
`None`. -/
inductive DVal where
  | s (v : String)
  | n (v : Int)
  | null
deriving DecidableEq

/-- Wraps an optional extraction as a dict value. -/
def optDV : Option String → DVal
  | some v => .s v
  | none => .null

/-- The SHA1 extraction of `get_file_details`:
`_safe_search(r'SHA1 Checksum: ([^<]+)', text, re.DOTALL)`, stripped
when matched (the group is non-empty, so the truthiness guard before
`.strip()` always passes). -/
def sha1SearchStr (page : String) : Option String :=
  (classPlusSearch "SHA1 Checksum: ".data '<' [] page.data).map
    (fun l => pyStrip (String.mk l))

/-- The date extraction of `get_file_details`. -/
def dateSearchStr (page : String) : Option String :=
  (dateSearch page.data).map String.mk

/-- The download-count extraction of `get_file_details`:
`_safe_search(r'>Downloads:&nbsp;</th><td>([^<]+)</td>', text,
re.DOTALL)`. -/
def dcSearchStr (page : String) : Option String :=
  (classPlusSearch ">Downloads:&nbsp;</th><td>".data '<' "</td>".data
    page.data).map String.mk

/-- The returned record of `get_file_details`, exactly the keys of the
source's final `dict(...)` literal: the computed `download_count` is NOT
among them. -/
def mkDetails (project_name fname : String) (sha1 date : Option String) :
    List (String × DVal) :=
  [("project_name", .s project_name), ("fname", .s fname),
   ("sha1", optDV sha1), ("date", optDV date)]

/-- Embeds `get_file_details(project_name, fname)`.  `fetch` is the
detail-page fetch (`none` models an `HTTPError`, turned into empty
text).  The download count is extracted and converted with
`int(·, 10)` (whose `ValueError` is not caught) but then dropped: the
returned dict contains only `project_name`, `fname`, `sha1`, `date`. -/
def get_file_details (project_name fname : String) (fetch : Option String) :
    PyResult (List (String × DVal)) :=
  let text := fetch.getD ""
  let sha1 := sha1SearchStr text
  let date := dateSearchStr text
  match dcSearchStr text with
  | some dc =>
    match pyIntDec dc with
    | none => .err "ValueError"
    | some _ => .ok (mkDetails project_name fname sha1 date)
  | none => .ok (mkDetails project_name fname sha1 date)

/-! ## Helper lemmas -/

/-- A pointwise filesystem write of real content never removes a file. -/
theorem fsUpdate_some_pres (fs : Fs) (q v p : String) (h : fs p ≠ none) :
    fsUpdate fs q (some v) p ≠ none := by
  unfold fsUpdate
  split <;> simp_all

/-- `download_file` only creates or overwrites, never deletes. -/
theorem download_file_preserves (rc dd fn : String) (fs : Fs) (p : String)
    (h : fs p ≠ none) : (download_file rc dd fn fs).fs p ≠ none := by
  unfold download_file
  exact fsUpdate_some_pres fs _ _ p h

/-- `maybe_download_file` only creates or overwrites (or raises with the
filesystem untouched), never deletes. -/
theorem maybe_download_file_preserves (sha1fn : String → String)
    (ds : Option String) (rc dd fn : String) (fs : Fs) (p : String)
    (h : fs p ≠ none) :
    (maybe_download_file sha1fn ds rc dd fn fs).fs p ≠ none := by
  unfold maybe_download_file
  dsimp only
  split
  · split
    · exact h
    · split
      · exact download_file_preserves rc dd fn fs p h
      · exact h
  · exact h

/-! ## C1 -/

/-- A local artifact directory holding `dist/rel.tgz`. -/
def fsC1 : Fs :=
  fun p => if p = "dist/rel.tgz" then some "local-bytes" else none

/-- C1: the claim states that a matching local/remote checksum performs
no download and that a differing or absent remote checksum re-downloads.
The code does the opposite: with remote checksum `abc123` and a local
file whose SHA1 is `abc123` the download branch runs (first two
conjuncts); with remote checksum `def456` no download happens (next two
conjuncts); with the remote checksum absent the misspelled assignment
`hex_digext = '-'` leaves `hex_digest` unbound and the comparison raises
`NameError` (last conjunct). -/
theorem C1_maybe_download_inverted :
    ((maybe_download_file (fun _ => "abc123") (some "abc123") "remote-bytes"
        "dist" "rel.tgz" fsC1).downloaded = true ∧
      (maybe_download_file (fun _ => "abc123") (some "abc123") "remote-bytes"
        "dist" "rel.tgz" fsC1).fs "dist/rel.tgz" = some "remote-bytes") ∧
    ((maybe_download_file (fun _ => "abc123") (some "def456") "remote-bytes"
        "dist" "rel.tgz" fsC1).downloaded = false ∧
      (maybe_download_file (fun _ => "abc123") (some "def456") "remote-bytes"
        "dist" "rel.tgz" fsC1).fs "dist/rel.tgz" = some "local-bytes") ∧
    (maybe_download_file (fun _ => "x") none "remote-bytes" "dist" "rel.tgz"
        fsC1).err = some PyErr.nameError := by
  decide

/-! ## C2 -/

/-- C2: a destination that exists without the generated-file marker is
left untouched — the writer returns the filesystem unchanged (every
path, hence also the destination, byte-for-byte identical), without
prompting and without renaming. -/
theorem C2_safe_overwrite_protects_unmarked (lines : List String)
    (fname yn : String) (fs : Fs) (content : String)
    (hexists : fs fname = some content) (hmark : hasMagic content = false) :
    (_safe_overwrite lines fname yn fs).fs = fs ∧
    (_safe_overwrite lines fname yn fs).prompted = false ∧
    (_safe_overwrite lines fname yn fs).renamed = false := by
  unfold _safe_overwrite can_overwrite_check
  rw [hexists]
  simp [hmark]

/-- A hand-edited `README.rst` without the marker. -/
def fsC2 : Fs := fun p => if p = "README.rst" then some "hand edited" else none

/-- Witness for C2 at a concrete hand-edited file. -/
theorem C2_witness :
    (fsC2 "README.rst" = some "hand edited" ∧
      hasMagic "hand edited" = false) ∧
    ((_safe_overwrite ["x"] "README.rst" "y" fsC2).fs = fsC2 ∧
      (_safe_overwrite ["x"] "README.rst" "y" fsC2).prompted = false ∧
      (_safe_overwrite ["x"] "README.rst" "y" fsC2).renamed = false) :=
  ⟨⟨rfl, by decide⟩,
    C2_safe_overwrite_protects_unmarked ["x"] "README.rst" "y" fsC2
      "hand edited" rfl (by decide)⟩

/-! ## C6 -/

/-- C6: a marked destination whose content equals the candidate is
handled without a prompt and without a rename: the candidate is rendered
to the scratch path and unlinked again, the destination and every other
file keep their contents.  (The destination is assumed distinct from the
writer's own scratch path `/tmp/pybdist/tmp.tmp`.) -/
theorem C6_identical_content_noop (lines : List String) (fname yn : String)
    (fs : Fs) (content : String) (hne : fname ≠ out_tempname)
    (hexists : fs fname = some content) (hmark : hasMagic content = true)
    (hsame : joinNl lines = content) :
    (_safe_overwrite lines fname yn fs).prompted = false ∧
    (_safe_overwrite lines fname yn fs).renamed = false ∧
    (_safe_overwrite lines fname yn fs).fs fname = some content ∧
    (_safe_overwrite lines fname yn fs).fs out_tempname = none ∧
    ∀ p, p ≠ out_tempname → (_safe_overwrite lines fname yn fs).fs p = fs p := by
  unfold _safe_overwrite can_overwrite_check fsUpdate
  rw [hexists]
  simp only [hmark, hsame, if_true]
  simp [hne, hexists]
  intro p hp
  simp [hp]

/-- A marked README whose content equals the candidate lines. -/
def fsC6 : Fs :=
  fun p =>
    if p = "README.rst" then some "x\n-- file generated by `pybdist`."
    else none

/-- Witness for C6 at a concrete marked, identical file. -/
theorem C6_witness :
    ("README.rst" ≠ out_tempname ∧
      fsC6 "README.rst" = some "x\n-- file generated by `pybdist`." ∧
      hasMagic "x\n-- file generated by `pybdist`." = true ∧
      joinNl ["x", "-- file generated by `pybdist`."] =
        "x\n-- file generated by `pybdist`.") ∧
    ((_safe_overwrite ["x", "-- file generated by `pybdist`."] "README.rst"
        "y" fsC6).prompted = false ∧
      (_safe_overwrite ["x", "-- file generated by `pybdist`."] "README.rst"
        "y" fsC6).renamed = false ∧
      (_safe_overwrite ["x", "-- file generated by `pybdist`."] "README.rst"
        "y" fsC6).fs "README.rst" =
          some "x\n-- file generated by `pybdist`." ∧
      (_safe_overwrite ["x", "-- file generated by `pybdist`."] "README.rst"
        "y" fsC6).fs out_tempname = none ∧
      ∀ p, p ≠ out_tempname →
        (_safe_overwrite ["x", "-- file generated by `pybdist`."] "README.rst"
          "y" fsC6).fs p = fsC6 p) :=
  ⟨⟨by decide, rfl, by decide, by decide⟩,
    C6_identical_content_noop ["x", "-- file generated by `pybdist`."]
      "README.rst" "y" fsC6 "x\n-- file generated by `pybdist`."
      (by decide) rfl (by decide) (by decide)⟩

/-! ## C3 -/

/-- Two Featured remote artifacts for the re-labeling pass. -/
def e1 : Entry := ⟨"proj", none, some "s1", ["Featured"], some "a.tgz"⟩

/-- Second Featured artifact. -/
def e2 : Entry := ⟨"proj", none, some "s2", ["Featured"], some "b.tgz"⟩

/-- Local artifact directory already holding both files. -/
def fsC3 : Fs :=
  fun p =>
    if p = "dist/a.tgz" then some "A"
    else if p = "dist/b.tgz" then some "B" else none

/-- The re-labeling pass over both artifacts, with every upload call
returning status 404 and no URL. -/
def c3run : OpResult :=
  remove_featured_labels (fun _ => "zz") (fun _ => some "h") (fun _ => "c")
    (fun _ => ⟨404, "Not Found", none⟩) [e1, e2] none fsC3

/-- C3 counterexample: the claim says ANY upload that returns no URL
stops the whole batch with a non-zero exit after printing diagnostics.
In the re-labeling pass every upload goes through `update_file`, which
discards the upload result: with both uploads failing (no URL), the run
raises nothing, calls no `sys.exit`, prints no status/reason diagnostic,
and still processes BOTH artifacts. -/
theorem C3_update_file_ignores_upload_failure :
    c3run.exit = none ∧ c3run.err = none ∧
    c3run.msgs.contains (Msg.updating "a.tgz") = true ∧
    c3run.msgs.contains (Msg.updating "b.tgz") = true ∧
    c3run.msgs.contains (Msg.uploadDiag 404 "Not Found") = false := by
  decide

/-- C3 amended: only the checksum-reconciliation path
(`maybe_upload_file`) is fail-fast.  When it attempts an upload — either
because the remote checksum is absent (first conjunct) or because the
local digest differs from it (second conjunct) — and the upload call
returns no URL, it prints the status/reason diagnostic and the
file/project context and calls `sys.exit(-1)`; the local filesystem is
untouched. -/
theorem C3_maybe_upload_fail_fast :
    (∀ (sha1fn : String → String) (resp : UploadResp)
        (dd fn project summary : String) (labels : List String) (fs : Fs),
      truthy resp.url = false →
      (maybe_upload_file sha1fn none resp dd fn project summary labels
          fs).exit = some (-1) ∧
      (maybe_upload_file sha1fn none resp dd fn project summary labels
          fs).msgs =
        [.fileNotThereUploading fn, .uploadDiag resp.status resp.reason,
          .uploadContext (dd ++ "/" ++ fn) project summary labels] ∧
      (maybe_upload_file sha1fn none resp dd fn project summary labels
          fs).fs = fs) ∧
    (∀ (sha1fn : String → String) (s : String) (resp : UploadResp)
        (dd fn project summary : String) (labels : List String) (fs : Fs)
        (content : String),
      s ≠ "" → fs (dd ++ "/" ++ fn) = some content → sha1fn content ≠ s →
      truthy resp.url = false →
      (maybe_upload_file sha1fn (some s) resp dd fn project summary labels
          fs).exit = some (-1) ∧
      (maybe_upload_file sha1fn (some s) resp dd fn project summary labels
          fs).msgs =
        [.shaMismatchUploading fn, .uploadDiag resp.status resp.reason,
          .uploadContext (dd ++ "/" ++ fn) project summary labels] ∧
      (maybe_upload_file sha1fn (some s) resp dd fn project summary labels
          fs).fs = fs) := by
  constructor
  · intro sha1fn resp dd fn project summary labels fs hurl
    unfold maybe_upload_file maybe_upload_core truthy
    simp [hurl, truthy] at hurl ⊢
    simp [hurl]
  · intro sha1fn s resp dd fn project summary labels fs content hs hloc hdig
      hurl
    unfold maybe_upload_file maybe_upload_core
    rw [hloc]
    have hie : s.isEmpty = false := by
      cases hh : s.isEmpty
      · rfl
      · exact absurd ((String.isEmpty_iff s).mp hh) hs
    have hts : truthy (some s) = true := by
      unfold truthy
      simp [hie]
    have hne2 : some (sha1fn content) ≠ some s := by
      simp [hdig]
    simp [hts, hne2, hurl]

/-- Witness for C3's amended theorem: a concrete failing upload on the
absent-remote-checksum branch. -/
theorem C3_witness :
    truthy (⟨404, "Not Found", none⟩ : UploadResp).url = false ∧
    ((maybe_upload_file (fun _ => "zz") none ⟨404, "Not Found", none⟩ "dist"
        "a.tgz" "proj" "s1" [] fsC3).exit = some (-1) ∧
      (maybe_upload_file (fun _ => "zz") none ⟨404, "Not Found", none⟩ "dist"
        "a.tgz" "proj" "s1" [] fsC3).msgs =
        [.fileNotThereUploading "a.tgz", .uploadDiag 404 "Not Found",
          .uploadContext ("dist" ++ "/" ++ "a.tgz") "proj" "s1" []] ∧
      (maybe_upload_file (fun _ => "zz") none ⟨404, "Not Found", none⟩ "dist"
        "a.tgz" "proj" "s1" [] fsC3).fs = fsC3) :=
  ⟨by decide,
    C3_maybe_upload_fail_fast.1 (fun _ => "zz") ⟨404, "Not Found", none⟩
      "dist" "a.tgz" "proj" "s1" [] fsC3 (by decide)⟩

/-! ## C10 -/

/-- The first loop of the re-labeling pass never deletes a local file
(it only skips, downloads into missing paths, or lets
`maybe_download_file` act). -/
theorem rfl_loop1_preserves (sha1fn : String → String)
    (detailsOf : String → Option String) (contentOf : String → String)
    (except_list : Option (List String)) :
    ∀ (l : List Entry) (fs : Fs) (msgs : List Msg) (p : String),
      fs p ≠ none →
      (rfl_loop1 sha1fn detailsOf contentOf except_list l fs msgs).1 p ≠
        none := by
  intro l
  induction l with
  | nil =>
    intro fs msgs p h
    simpa [rfl_loop1] using h
  | cons it rest ih =>
    intro fs msgs p h
    unfold rfl_loop1
    dsimp only
    split
    · exact ih fs msgs p h
    · split
      · exact h
      · split
        · exact ih _ _ p (download_file_preserves _ _ _ fs p h)
        · split
          · exact maybe_download_file_preserves _ _ _ _ _ fs p h
          · exact ih _ _ p (maybe_download_file_preserves _ _ _ _ _ fs p h)

/-- C10: no reconciler operation — direct download, checksum-driven
maybe-download, checksum-driven maybe-upload, or the whole Featured
re-labeling pass — ever deletes a local file: every path that held a
file beforehand still holds one afterwards (also when the operation
aborts with an exception). -/
theorem C10_reconciler_never_deletes (sha1fn : String → String)
    (detailsOf : String → Option String) (contentOf : String → String)
    (respOf : Entry → UploadResp) (lst : List Entry)
    (except_list : Option (List String)) (ds : Option String)
    (rc dd fn project summary : String) (labels : List String)
    (resp : UploadResp) (fs : Fs) (p : String) (h : fs p ≠ none) :
    (download_file rc dd fn fs).fs p ≠ none ∧
    (maybe_download_file sha1fn ds rc dd fn fs).fs p ≠ none ∧
    (maybe_upload_file sha1fn ds resp dd fn project summary labels fs).fs p ≠
      none ∧
    (remove_featured_labels sha1fn detailsOf contentOf respOf lst except_list
        fs).fs p ≠ none := by
  refine ⟨download_file_preserves rc dd fn fs p h,
    maybe_download_file_preserves sha1fn ds rc dd fn fs p h, h, ?_⟩
  unfold remove_featured_labels
  dsimp only
  have hpre := rfl_loop1_preserves sha1fn detailsOf contentOf except_list
    (_filter_featured_downloads lst) fs [] p h
  split
  case _ fs1 msgs1 e heq =>
    rw [heq] at hpre
    exact hpre
  case _ fs1 msgs1 heq =>
    rw [heq] at hpre
    exact hpre

/-- Witness for C10 at a concrete filesystem and artifact list. -/
theorem C10_witness :
    fsC3 "dist/a.tgz" ≠ none ∧
    ((download_file "rc" "dist" "a.tgz" fsC3).fs "dist/a.tgz" ≠ none ∧
      (maybe_download_file (fun _ => "zz") (some "h") "rc" "dist" "a.tgz"
        fsC3).fs "dist/a.tgz" ≠ none ∧
      (maybe_upload_file (fun _ => "zz") (some "h") ⟨404, "Not Found", none⟩
        "dist" "a.tgz" "proj" "s1" [] fsC3).fs "dist/a.tgz" ≠ none ∧
      (remove_featured_labels (fun _ => "zz") (fun _ => some "h")
        (fun _ => "c") (fun _ => ⟨404, "Not Found", none⟩) [e1, e2] none
        fsC3).fs "dist/a.tgz" ≠ none) :=
  ⟨by decide,
    C10_reconciler_never_deletes (fun _ => "zz") (fun _ => some "h")
      (fun _ => "c") (fun _ => ⟨404, "Not Found", none⟩) [e1, e2] none
      (some "h") "rc" "dist" "a.tgz" "proj" "s1" [] ⟨404, "Not Found", none⟩
      fsC3 "dist/a.tgz" (by decide)⟩

/-! ## C4 -/

/-- A short license template of the Apache shape (the real template is
external data fetched or de-obfuscated at run time; like every real
license text it contains no occurrence of the generated-file marker). -/
def apacheShort : String :=
  "Apache License\nCopyright [yyyy] [name of copyright owner]\nTerms."

/-- C4 counterexample: the generated license file does NOT end with the
machine-generated marker line — `out_license` appends no marker at all,
so no line of the written content contains it (evaluated on a concrete
Apache-rule run; the README/INSTALL emitters do append the marker, see
the amended theorem). -/
theorem C4_license_missing_marker :
    out_license "Apache 2.0" "Alice" none "/home/u" [] apacheShort "2024" =
      .ok ("LICENSE-2.0.txt",
        ["Apache License", "Copyright 2024 Alice", "Terms."]) ∧
    (["Apache License", "Copyright 2024 Alice", "Terms."].all
      (fun l => !containsSubStr MAGIC_NAME l)) = true := by
  decide

/-- C4 amended: for the default locale (identity translation), every
README and every INSTALL emission ends with the fixed marker line
`-- file generated by \x60pybdist\x60.`, which contains the marker the
safe writer checks for; the license file is written without it. -/
theorem C4_readme_install_end_with_marker (env : Env) (setup : Setup)
    (cwd : String) (listing : List String)
    (htr : env.tr = fun s => s) :
    (_readme_lines env setup cwd listing).getLast? =
      some (pyFmtS "-- file generated by %s." MAGIC_NAME) ∧
    (_install_lines env setup).getLast? =
      some (pyFmtS "-- file generated by %s." MAGIC_NAME) ∧
    containsSubStr MAGIC_NAME
      (pyFmtS "-- file generated by %s." MAGIC_NAME) = true := by
  refine ⟨?_, ?_, by decide⟩
  · unfold _readme_lines
    rw [htr]
    rw [List.getLast?_append_of_ne_nil]
    · rfl
    · simp
  · unfold _install_lines
    rw [htr]
    rw [List.getLast?_append_of_ne_nil]
    · rfl
    · simp

/-- The default-locale environment: one-line wrapping, identity
translation, empty apt cache. -/
def env0 : Env := ⟨fun s => [s], fun s => s, fun _ => none⟩

/-- A minimal metadata record (Apache license, no optional fields). -/
def setup0 : Setup :=
  ⟨"pkg", "d", "ld", "http://example.com/x", "Apache 2.0", "Alice", none,
    none, none, none⟩

/-- Witness for C4's amended theorem at the concrete default-locale
environment. -/
theorem C4_witness :
    (env0.tr = fun s => s) ∧
    ((_readme_lines env0 setup0 "/home/u" []).getLast? =
        some (pyFmtS "-- file generated by %s." MAGIC_NAME) ∧
      (_install_lines env0 setup0).getLast? =
        some (pyFmtS "-- file generated by %s." MAGIC_NAME) ∧
      containsSubStr MAGIC_NAME
        (pyFmtS "-- file generated by %s." MAGIC_NAME) = true) :=
  ⟨rfl, C4_readme_install_end_with_marker env0 setup0 "/home/u" [] rfl⟩

/-! ## C5 -/

/-- C5 counterexample: a first full generation pass over an empty
directory succeeds and creates `LICENSE-2.0.txt`; the README a second
pass would then generate differs from the first pass's README, because
`_find_license` now discovers the created file and the license-reference
line switches from the bare default name to the discovered absolute
path. -/
theorem C5_second_run_differs :
    docs_run env0 setup0 "/home/u" [] apacheShort "2024" =
      .ok (_readme_lines env0 setup0 "/home/u" [],
        _install_lines env0 setup0, ["LICENSE-2.0.txt"]) ∧
    _readme_lines env0 setup0 "/home/u" ["LICENSE-2.0.txt"] ≠
      _readme_lines env0 setup0 "/home/u" [] := by
  decide

/-- C5 amended: document generation is deterministic in the metadata and
the license-file discovery; whenever `_find_license` already finds a
license file before the first run (so the run does not change the
directory listing), a second run reproduces the first run's outputs
exactly. -/
theorem C5_stable_when_license_discovery_unchanged (env : Env)
    (setup : Setup) (cwd : String) (listing : List String)
    (fetched year : String) (r i l2 : List String)
    (hfound : find_license cwd listing ≠ "")
    (h1 : docs_run env setup cwd listing fetched year = .ok (r, i, l2)) :
    l2 = listing ∧
    docs_run env setup cwd l2 fetched year = .ok (r, i, l2) := by
  unfold docs_run at h1 ⊢
  cases hrule : out_license setup.license setup.author setup.COPYRIGHT_NAME
      cwd listing fetched year with
  | err m =>
    rw [hrule] at h1
    exact absurd h1 (by simp)
  | ok v =>
    rw [hrule] at h1
    rw [if_neg hfound] at h1
    injection h1 with h2
    have hr : _readme_lines env setup cwd listing = r := congrArg Prod.fst h2
    have hi : _install_lines env setup = i :=
      congrArg (fun x => x.2.1) h2
    have hl : listing = l2 := congrArg (fun x => x.2.2) h2
    subst hl
    refine ⟨rfl, ?_⟩
    rw [hrule, if_neg hfound, hr, hi]

/-- Witness for C5's amended theorem: with `LICENSE-2.0.txt` already in
the listing, the second run reproduces the first. -/
theorem C5_witness :
    (find_license "/home/u" ["LICENSE-2.0.txt"] ≠ "" ∧
      docs_run env0 setup0 "/home/u" ["LICENSE-2.0.txt"] apacheShort "2024" =
        .ok (_readme_lines env0 setup0 "/home/u" ["LICENSE-2.0.txt"],
          _install_lines env0 setup0, ["LICENSE-2.0.txt"])) ∧
    (["LICENSE-2.0.txt"] = ["LICENSE-2.0.txt"] ∧
      docs_run env0 setup0 "/home/u" ["LICENSE-2.0.txt"] apacheShort "2024" =
        .ok (_readme_lines env0 setup0 "/home/u" ["LICENSE-2.0.txt"],
          _install_lines env0 setup0, ["LICENSE-2.0.txt"])) :=
  ⟨⟨by decide, by decide⟩,
    C5_stable_when_license_discovery_unchanged env0 setup0 "/home/u"
      ["LICENSE-2.0.txt"] apacheShort "2024"
      (_readme_lines env0 setup0 "/home/u" ["LICENSE-2.0.txt"])
      (_install_lines env0 setup0) ["LICENSE-2.0.txt"] (by decide)
      (by decide)⟩

/-! ## C7 -/

/-- `List.find?` returns the element at the least index satisfying the
predicate. -/
theorem find?_first_match {α : Type} (p : α → Bool) :
    ∀ (l : List α) (i : Nat) (hi : i < l.length),
      p (l.get ⟨i, hi⟩) = true →
      ∃ j, ∃ hj : j < l.length, j ≤ i ∧
        l.find? p = some (l.get ⟨j, hj⟩) ∧ p (l.get ⟨j, hj⟩) = true ∧
        ∀ k, ∀ hk : k < l.length, k < j → p (l.get ⟨k, hk⟩) = false := by
  intro l
  induction l with
  | nil =>
    intro i hi
    exact absurd hi (by simp)
  | cons a t ih =>
    intro i hi hp
    cases hpa : p a with
    | true =>
      refine ⟨0, by simp, Nat.zero_le i, ?_, by simpa using hpa, ?_⟩
      · simp [List.find?, hpa]
      · intro k hk hk0
        exact absurd hk0 (by omega)
    | false =>
      cases i with
      | zero =>
        rw [show (a :: t).get ⟨0, hi⟩ = a from rfl] at hp
        rw [hpa] at hp
        exact absurd hp (by simp)
      | succ i2 =>
        have hi2 : i2 < t.length := by simpa using hi
        have hp2 : p (t.get ⟨i2, hi2⟩) = true := by simpa using hp
        obtain ⟨j, hj, hle, hfind, hpj, hmin⟩ := ih i2 hi2 hp2
        refine ⟨j + 1, by simpa using hj, by omega, ?_, by simpa using hpj,
          ?_⟩
        · rw [List.find?_cons_of_neg _ (by simp [hpa])]
          simpa using hfind
        · intro k hk hklt
          cases k with
          | zero => simpa using hpa
          | succ k2 =>
            have := hmin k2 (by simpa using hk) (by omega)
            simpa using this

/-- C7: (i) when no key of the ordered `LICENSES` table matches the
license identifier, `out_license` raises the unknown-license error
before fetching or writing anything (it returns the error and no
filename/lines pair); (ii) when some key matches, the rule used is the
FIRST matching entry in table order: `find_rule` returns the entry at
the least matching index. -/
theorem C7_unknown_license_error_first_match_wins :
    (∀ (lic author : String) (cn : Option String) (cwd : String)
        (listing : List String) (fetched year : String),
      LICENSES.all (fun r => !reSearchCI r.1 lic) = true →
      out_license lic author cn cwd listing fetched year =
        .err ("Unknown lic_text " ++ lic)) ∧
    (∀ (lic : String) (i : Nat) (hi : i < LICENSES.length),
      reSearchCI (LICENSES.get ⟨i, hi⟩).1 lic = true →
      ∃ j, ∃ hj : j < LICENSES.length, j ≤ i ∧
        find_rule lic = some (LICENSES.get ⟨j, hj⟩) ∧
        reSearchCI (LICENSES.get ⟨j, hj⟩).1 lic = true ∧
        ∀ k, ∀ hk : k < LICENSES.length, k < j →
          reSearchCI (LICENSES.get ⟨k, hk⟩).1 lic = false) := by
  constructor
  · intro lic author cn cwd listing fetched year hall
    unfold out_license find_rule
    have hnone : LICENSES.find? (fun r => reSearchCI r.1 lic) = none := by
      rw [List.find?_eq_none]
      intro x hx
      have hx2 := (List.all_eq_true.mp hall) x hx
      simp only [Bool.not_eq_true'] at hx2
      simp [hx2]
    rw [hnone]
  · intro lic i hi hp
    exact find?_first_match (fun r => reSearchCI r.1 lic) LICENSES i hi hp

/-- Witness for C7: `WTFPL` matches no key and errors; `GPL version 3`
matches and resolves to the first matching entry. -/
theorem C7_witness :
    (LICENSES.all (fun r => !reSearchCI r.1 "WTFPL") = true ∧
      out_license "WTFPL" "Alice" none "/home/u" [] "text" "2024" =
        .err ("Unknown lic_text " ++ "WTFPL")) ∧
    (reSearchCI (LICENSES.get ⟨3, by decide⟩).1 "GPL version 3" = true ∧
      ∃ j, ∃ hj : j < LICENSES.length, j ≤ 3 ∧
        find_rule "GPL version 3" = some (LICENSES.get ⟨j, hj⟩) ∧
        reSearchCI (LICENSES.get ⟨j, hj⟩).1 "GPL version 3" = true ∧
        ∀ k, ∀ hk : k < LICENSES.length, k < j →
          reSearchCI (LICENSES.get ⟨k, hk⟩).1 "GPL version 3" = false) :=
  ⟨⟨by decide,
      C7_unknown_license_error_first_match_wins.1 "WTFPL" "Alice" none
        "/home/u" [] "text" "2024" (by decide)⟩,
    ⟨by decide,
      C7_unknown_license_error_first_match_wins.2 "GPL version 3" 3
        (by decide) (by decide)⟩⟩

/-! ## C8 -/

/-- When the literal opening delimiter occurs nowhere in the haystack,
the lazy-group search finds nothing. -/
theorem safeSearchLit_none_of_not_contains (pre post : List Char)
    (noNl : Bool) :
    ∀ h : List Char, containsSub pre h = false →
      safeSearchLit pre post noNl h = none := by
  intro h
  induction h with
  | nil =>
    intro _
    rfl
  | cons c t ih =>
    intro hc
    unfold containsSub at hc
    rw [Bool.or_eq_false_iff] at hc
    unfold safeSearchLit
    rw [hc.1]
    simp only [Bool.false_eq_true, if_false]
    exact ih hc.2

/-- A complete feed entry (all four fields present). -/
def entryA : String :=
  "<title> pkg 1.0 </title><updated>2010-01</updated>Labels:\n Featured Type-Source&lt;a href=\"/downloads/detail?name=pkg-1.0.tgz\" x"

/-- The same entry with the `<updated>` block removed. -/
def entryB : String :=
  "<title> pkg 1.0 </title>Labels:\n Featured Type-Source&lt;a href=\"/downloads/detail?name=pkg-1.0.tgz\" x"

/-- C8: each entry field is extracted independently and a failing
pattern is recorded as absent, not an error.  (i) For EVERY entry text
without an `<updated>` opening tag, the field is `none` (the extraction
is total — no exception value exists in its type).  (ii)/(iii) On a
concrete entry, removing the `<updated>` block flips only the timestamp
field to absent; the summary, labels and filename of the sibling fields
parse to the same values as before. -/
theorem C8_fields_independent_absent_on_failure :
    (∀ (pn e : String), containsSub "<updated>".data e.data = false →
      (parse_entry pn e).updated = none) ∧
    parse_entry "p" entryA =
      ⟨"p", some "2010-01", some "pkg 1.0 ", ["Featured", "Type-Source"],
        some "pkg-1.0.tgz"⟩ ∧
    parse_entry "p" entryB =
      ⟨"p", none, some "pkg 1.0 ", ["Featured", "Type-Source"],
        some "pkg-1.0.tgz"⟩ := by
  refine ⟨?_, by decide, by decide⟩
  intro pn e h
  unfold parse_entry
  dsimp only
  rw [safeSearchLit_none_of_not_contains "<updated>".data "</updated>".data
    true e.data h]
  rfl

/-- Witness for C8's universally quantified part at the concrete
marker-free entry. -/
theorem C8_witness :
    containsSub "<updated>".data entryB.data = false ∧
    (parse_entry "p" entryB).updated = none :=
  ⟨by decide,
    C8_fields_independent_absent_on_failure.1 "p" entryB (by decide)⟩

/-! ## C9 -/

/-- A concrete detail page on which all three patterns (checksum, date,
download count) match. -/
def pageC9 : String :=
  "SHA1 Checksum:  deadbeef\n<span class=\"date\" x title=\"Jan 1\">>Downloads:&nbsp;</th><td>42</td>"

/-- C9 counterexample: on a page where the download-count pattern
matches (`42`), the returned record still has no `download_count` key —
`get_file_details` extracts and converts the count but omits it from the
dict it returns, so the claim that the record contains a numeric
download count is false. -/
theorem C9_record_lacks_download_count :
    dcSearchStr pageC9 = some "42" ∧
    get_file_details "proj" "a.tgz" (some pageC9) =
      .ok [("project_name", DVal.s "proj"), ("fname", DVal.s "a.tgz"),
        ("sha1", DVal.s "deadbeef"), ("date", DVal.s "Jan 1")] ∧
    List.lookup "download_count"
      [("project_name", DVal.s "proj"), ("fname", DVal.s "a.tgz"),
        ("sha1", DVal.s "deadbeef"), ("date", DVal.s "Jan 1")] = none := by
  decide

/-- C9 amended: every successfully returned detail record contains
`sha1` and `date` keys — each the pattern-extraction result when it
matched and `None` otherwise — and never a `download_count` key; an HTTP
error (absent fetch) yields a record with both optional fields
`None`. -/
theorem C9_details_first_match_or_absent :
    (∀ (pn fn : String) (fetch : Option String) (d : List (String × DVal)),
      get_file_details pn fn fetch = .ok d →
      d.lookup "download_count" = none ∧
      d.lookup "sha1" = some (optDV (sha1SearchStr (fetch.getD ""))) ∧
      d.lookup "date" = some (optDV (dateSearchStr (fetch.getD "")))) ∧
    (∀ pn fn : String,
      get_file_details pn fn none = .ok (mkDetails pn fn none none)) := by
  have hlook : ∀ (pn fn : String) (sha1 date : Option String),
      (mkDetails pn fn sha1 date).lookup "download_count" = none ∧
      (mkDetails pn fn sha1 date).lookup "sha1" = some (optDV sha1) ∧
      (mkDetails pn fn sha1 date).lookup "date" = some (optDV date) := by
    intro pn fn sha1 date
    refine ⟨?_, ?_, ?_⟩ <;>
      simp [mkDetails, List.lookup, show (("download_count" : String) ==
        "project_name") = false from by decide, show (("download_count" :
        String) == "fname") = false from by decide, show (("download_count" :
        String) == "sha1") = false from by decide, show (("download_count" :
        String) == "date") = false from by decide, show (("sha1" : String) ==
        "project_name") = false from by decide, show (("sha1" : String) ==
        "fname") = false from by decide, show (("sha1" : String) == "sha1") =
        true from by decide, show (("date" : String) == "project_name") =
        false from by decide, show (("date" : String) == "fname") = false
        from by decide, show (("date" : String) == "sha1") = false from by
        decide, show (("date" : String) == "date") = true from by decide]
  constructor
  · intro pn fn fetch d hd
    unfold get_file_details at hd
    dsimp only at hd
    split at hd
    · split at hd
      · exact absurd hd (by simp)
      · injection hd with hd2
        subst hd2
        exact hlook pn fn _ _
    · injection hd with hd2
      subst hd2
      exact hlook pn fn _ _
  · intro pn fn
    rfl

/-- Witness for C9's amended theorem at the concrete detail page. -/
theorem C9_witness :
    get_file_details "proj" "a.tgz" (some pageC9) =
      .ok [("project_name", DVal.s "proj"), ("fname", DVal.s "a.tgz"),
        ("sha1", DVal.s "deadbeef"), ("date", DVal.s "Jan 1")] ∧
    ([("project_name", DVal.s "proj"), ("fname", DVal.s "a.tgz"),
        ("sha1", DVal.s "deadbeef"),
        ("date", DVal.s "Jan 1")].lookup "download_count" = none ∧
      [("project_name", DVal.s "proj"), ("fname", DVal.s "a.tgz"),
        ("sha1", DVal.s "deadbeef"),
        ("date", DVal.s "Jan 1")].lookup "sha1" =
        some (optDV (sha1SearchStr ((some pageC9).getD ""))) ∧
      [("project_name", DVal.s "proj"), ("fname", DVal.s "a.tgz"),
        ("sha1", DVal.s "deadbeef"),
        ("date", DVal.s "Jan 1")].lookup "date" =
        some (optDV (dateSearchStr ((some pageC9).getD "")))) :=
  ⟨by decide,
    C9_details_first_match_or_absent.1 "proj" "a.tgz" (some pageC9)
      [("project_name", DVal.s "proj"), ("fname", DVal.s "a.tgz"),
        ("sha1", DVal.s "deadbeef"), ("date", DVal.s "Jan 1")] (by decide)⟩

end Pybdist
